import Mathlib

/-!
Verification development for the routing-py request executor.

The definitions below shallowly embed `Client._request` from
`src/routingpy/client_default.py` and `HereMaps._parse_matrix_json` from
`src/routingpy/routers/heremaps.py`.  Wall-clock time and sleep durations are
rationals; randomness, clock drift and the network are supplied by an explicit
environment.  Each invocation of `_request` consumes at most one element of a
finite list of network events, so the (in Python, unbounded) recursion becomes
structural recursion on that list.
-/

namespace RoutingPy

/-- JSON-like values, standing in for Python dicts returned as response bodies
and sent as POST bodies. -/
inductive JsonVal where
  | null : JsonVal
  | bool (b : Bool) : JsonVal
  | num (q : ℚ) : JsonVal
  | str (s : String) : JsonVal
  | arr (xs : List JsonVal) : JsonVal
  | obj (fields : List (String × JsonVal)) : JsonVal

/-- The keys of a `requests` keyword-argument dict that `Client._request`
touches: the `headers` sub-dict (an association list, as Python dicts are
looked up by key) and the `json` / `data` body slots filled in for POSTs.
A `none` field models the key being absent from the dict. -/
structure RequestsKwargs where
  headers : Option (List (String × String)) := none
  json : Option JsonVal := none
  data : Option JsonVal := none

/-- `dict(self.requests_kwargs, **requests_kwargs)`: a key-level merge where a
key present in the method-level dict overrides the client-level one. -/
def dictMerge (base override : RequestsKwargs) : RequestsKwargs where
  headers := override.headers.orElse fun _ => base.headers
  json := override.json.orElse fun _ => base.json
  data := override.data.orElse fun _ => base.data

/-- The outcome of `self._get_body(response)` (defined in `routingpy/base.py`,
not under src/): either the parsed body, or the exception it raises.
`overQueryLimit` is the `OverQueryLimit` subclass of `RetriableRequest`;
`retriableRequest` is any other `RetriableRequest`; `otherError` covers every
exception `Client._request` does not catch (`RouterApiError` and
`RetriableRequest` are the only classes it handles). -/
inductive BodyResult where
  | success (body : JsonVal)
  | routerApiError
  | overQueryLimit
  | retriableRequest
  | otherError

/-- One network event: what happens when `requests_method(...)` is issued.
`transportTimeout` is `requests.exceptions.Timeout` being raised after `dur`
seconds; `reply` is a response arriving after `dur` seconds with the given
HTTP status code, raw text, and `_get_body` classification. -/
inductive NetEvent where
  | transportTimeout (dur : ℚ)
  | reply (dur : ℚ) (status : Nat) (text : String) (body : BodyResult)

/-- Client-level configuration, fixed at construction. `retry_timeout` is in
seconds (a `timedelta` in the source). -/
structure Config where
  base_url : String
  retry_timeout : ℚ
  retry_over_query_limit : Bool := false
  skip_api_error : Bool := false
  requests_kwargs : RequestsKwargs := {}

/-- The ambient environment: `rand k` is the value `random.random()` returns
before the sleep of the attempt with `retry_counter = k`, and `gap k` is the
wall-clock time that passes between entering that attempt and its
`datetime.now()` reading (for the first attempt, the time between the two
consecutive `datetime.now()` calls). -/
structure Env where
  rand : Nat → ℚ
  gap : Nat → ℚ

/-- Warnings emitted via `warnings.warn`, by kind. -/
inductive Warning where
  | serverDown (tried : Nat)
  | rateLimitRetry (tried : Nat)
  | skippedApiError (text : String)
deriving DecidableEq, Repr

/-- The final outcome of a call to `_request`: a returned body, a bare
`return` (Python `None`: dry run, or a skipped API error), or a raised
exception.  `keyError` is the `KeyError` from the unguarded
`final_requests_kwargs['headers']['Content-Type']` lookup.
`outOfResponses` is a model artifact: the finite event list ran out. -/
inductive Outcome where
  | success (body : JsonVal)
  | noResult
  | timeout
  | routerApiError
  | overQueryLimit
  | otherError
  | keyError
  | outOfResponses

/-- Observable trace of one logical call: how many HTTP calls were issued,
the sleep durations, the elapsed value measured at each deadline check, the
warnings, what a dry run printed (resolved URL and final kwargs), and the
clock value when the call resolved. -/
structure Trace where
  networkCalls : Nat := 0
  sleeps : List ℚ := []
  checks : List ℚ := []
  warnings : List Warning := []
  printed : Option (String × RequestsKwargs) := none
  endTime : ℚ := 0

/-- Prefix one attempt's events onto the trace of the rest of the call. -/
def Trace.prepend (check : ℚ) (sl : List ℚ) (w : List Warning) (calls : Nat)
    (sub : Trace) : Trace :=
  { sub with
    networkCalls := calls + sub.networkCalls
    sleeps := sl ++ sub.sleeps
    checks := check :: sub.checks
    warnings := w ++ sub.warnings }

/-- Modelled from the spec: `BaseClient._generate_auth_url` (defined in
`routingpy/base.py`, not under src/), the trivial Auth URL Builder that
appends the parameter set (credentials included) to the path. -/
def generateAuthUrl (url : String) (getParams : List (String × String)) :
    String :=
  url ++ "?" ++ String.intercalate "&"
    (getParams.map fun p => p.1 ++ "=" ++ p.2)

/-- Modelled from the spec: `_RETRIABLE_STATUSES` (defined in
`routingpy/base.py`, not under src/), the server overload/unavailable class
of status codes (500/503/504-style) retried purely on status. -/
def retriableStatuses : List Nat := [500, 503, 504]

/-- The body-encoding step for POST requests: when `post_params` is given the
source unconditionally reads `final_requests_kwargs['headers']['Content-Type']`
and stores the body under `json` (for `application/json`) or `data`
(form-urlencoded) accordingly; a missing `headers` dict or `Content-Type` key
raises `KeyError`. -/
def encodePost (postParams : Option JsonVal) (kw : RequestsKwargs) :
    Except Unit RequestsKwargs :=
  match postParams with
  | none => .ok kw
  | some p =>
    match kw.headers with
    | none => .error ()
    | some hs =>
      match hs.lookup "Content-Type" with
      | none => .error ()
      | some ct =>
        if ct = "application/json" then .ok { kw with json := some p }
        else .ok { kw with data := some p }

/-- Shallow embedding of `Client._request` (client_default.py, lines 52-189).
State threaded explicitly: `t` is the current wall clock, `responses` the
remaining network events (one consumed per issued HTTP call).  Mirrors the
source statement by statement:
1. default `first_request_time` to `now()`;
2. fail with `Timeout` if `elapsed > retry_timeout`;
3. if `retry_counter > 0`, sleep `1.5^(retry_counter-1) * (random() + 0.5)`;
4. build the authed URL and merge kwargs; encode the POST body (possible
   `KeyError`);
5. on `dry_run`, print URL and kwargs and return `None`;
6. issue the HTTP call (`requests.exceptions.Timeout` becomes `Timeout`);
7. on a retriable status, warn and recurse with `retry_counter + 1`
   (`dry_run` is not forwarded by the source's recursive calls);
8. otherwise classify the body: success returns it; `RouterApiError` is
   swallowed with a warning when `skip_api_error` else re-raised;
   `OverQueryLimit` is re-raised unless `retry_over_query_limit`; any other
   `RetriableRequest` warns and recurses; other exceptions propagate. -/
def request (cfg : Config) (env : Env) (url : String)
    (getParams : List (String × String)) (postParams : Option JsonVal)
    (reqKwargs : Option RequestsKwargs) (dryRun : Bool)
    (firstRequestTime : Option ℚ) (retryCounter : Nat)
    (t : ℚ) (responses : List NetEvent) : Outcome × Trace :=
  let frt := firstRequestTime.getD t
  let t := t + env.gap retryCounter
  let elapsed := t - frt
  if cfg.retry_timeout < elapsed then
    (.timeout, { checks := [elapsed], endTime := t })
  else
    let sleeps : List ℚ :=
      if retryCounter > 0 then
        [(3/2 : ℚ) ^ (retryCounter - 1) * (env.rand retryCounter + 1/2)]
      else []
    let t := t + sleeps.sum
    let authedUrl := generateAuthUrl url getParams
    let mergedKwargs := dictMerge cfg.requests_kwargs (reqKwargs.getD {})
    match encodePost postParams mergedKwargs with
    | .error _ =>
      (.keyError, { checks := [elapsed], sleeps := sleeps, endTime := t })
    | .ok finalKwargs =>
      if dryRun then
        (.noResult,
          { checks := [elapsed], sleeps := sleeps,
            printed := some (cfg.base_url ++ authedUrl, finalKwargs),
            endTime := t })
      else
        match responses with
        | [] =>
          (.outOfResponses,
            { checks := [elapsed], sleeps := sleeps, endTime := t })
        | ev :: rest =>
          match ev with
          | .transportTimeout dur =>
            (.timeout,
              { networkCalls := 1, checks := [elapsed], sleeps := sleeps,
                endTime := t + dur })
          | .reply dur status text body =>
            let t := t + dur
            let tried := retryCounter + 1
            if status ∈ retriableStatuses then
              let sub := request cfg env url getParams postParams reqKwargs
                false (some frt) (retryCounter + 1) t rest
              (sub.1,
                Trace.prepend elapsed sleeps [.serverDown tried] 1 sub.2)
            else
              match body with
              | .success b =>
                (.success b,
                  { networkCalls := 1, checks := [elapsed], sleeps := sleeps,
                    endTime := t })
              | .routerApiError =>
                if cfg.skip_api_error then
                  (.noResult,
                    { networkCalls := 1, checks := [elapsed],
                      sleeps := sleeps,
                      warnings := [.skippedApiError text], endTime := t })
                else
                  (.routerApiError,
                    { networkCalls := 1, checks := [elapsed],
                      sleeps := sleeps, endTime := t })
              | .overQueryLimit =>
                if cfg.retry_over_query_limit then
                  let sub := request cfg env url getParams postParams
                    reqKwargs false (some frt) (retryCounter + 1) t rest
                  (sub.1,
                    Trace.prepend elapsed sleeps [.rateLimitRetry tried] 1
                      sub.2)
                else
                  (.overQueryLimit,
                    { networkCalls := 1, checks := [elapsed],
                      sleeps := sleeps, endTime := t })
              | .retriableRequest =>
                let sub := request cfg env url getParams postParams reqKwargs
                  false (some frt) (retryCounter + 1) t rest
                (sub.1,
                  Trace.prepend elapsed sleeps [.rateLimitRetry tried] 1
                    sub.2)
              | .otherError =>
                (.otherError,
                  { networkCalls := 1, checks := [elapsed], sleeps := sleeps,
                    endTime := t })

/-! ### HereMaps._parse_matrix_json (routers/heremaps.py, lines 1315-1350) -/

/-- The `summary` sub-dict of one `matrixEntry` object; `none` models an
absent key (`travelTime` / `costfactor` / `distance` are looked up by key). -/
structure MatrixSummary where
  travelTime : Option ℚ := none
  costfactor : Option ℚ := none
  distance : Option ℚ := none
deriving DecidableEq, Repr

/-- One element of `response['response']['matrixEntry']`. -/
structure MatrixEntry where
  startIndex : Nat
  summary : MatrixSummary
deriving DecidableEq, Repr

/-- The `Matrix` object built by `_parse_matrix_json` (only the fields the
parser computes; `raw` is the input itself and is omitted). -/
structure Matrix where
  durations : List (List ℚ)
  distances : List (List ℚ)
deriving DecidableEq, Repr

/-- Python exceptions that `_parse_matrix_json` can raise. -/
inductive PyExn where
  | keyError
  | typeError
deriving DecidableEq, Repr

/-- `obj['summary']['travelTime']` if present, else `obj['summary']['costfactor']`
(a `KeyError` when both are absent). -/
def summaryDuration (s : MatrixSummary) : Except PyExn ℚ :=
  match s.travelTime with
  | some tt => .ok tt
  | none =>
    match s.costfactor with
    | some cf => .ok cf
    | none => .error .keyError

/-- The `for index, obj in enumerate(mtx_objects)` loop of
`_parse_matrix_json`, as a recursion over the enumerated remainder.  `all` is
the full entry list and `l` its length; `next_` is the loop-carried placeholder
initialised to `None` (reading `next_['startIndex']` while it is still `None`
raises a `TypeError`). -/
def matrixLoop (all : List MatrixEntry) (l : Nat)
    (items : List (Nat × MatrixEntry)) (next_ : Option MatrixEntry)
    (idur idist : List ℚ) (durs dists : List (List ℚ)) :
    Except PyExn (List (List ℚ) × List (List ℚ)) :=
  match items with
  | [] => .ok (durs ++ [idur], dists ++ [idist])
  | (index, obj) :: rest =>
    let next_ := if index < l - 1 then all.get? (index + 1) else next_
    match summaryDuration obj.summary with
    | .error e => .error e
    | .ok d =>
      let idur := idur ++ [d]
      let idist :=
        match obj.summary.distance with
        | some q => idist ++ [q]
        | none => idist
      match next_ with
      | none => .error .typeError
      | some nx =>
        if nx.startIndex > obj.startIndex then
          matrixLoop all l rest next_ [] [] (durs ++ [idur]) (dists ++ [idist])
        else
          matrixLoop all l rest next_ idur idist durs dists

/-- Shallow embedding of the static method `HereMaps._parse_matrix_json`.
The input is `None` (dry run) or the `response['response']['matrixEntry']`
list; the output is `None`, a `Matrix`, or a raised exception. -/
def parse_matrix_json (response : Option (List MatrixEntry)) :
    Except PyExn (Option Matrix) :=
  match response with
  | none => .ok none
  | some mtx_objects =>
    match matrixLoop mtx_objects mtx_objects.length mtx_objects.enum
        none [] [] [] [] with
    | .error e => .error e
    | .ok (durs, dists) =>
      .ok (some { durations := durs, distances := dists })

/-- `obj['summary']['travelTime']` when present, else the `costfactor` value
(defaulting to 0; only used on well-formed summaries). -/
def durOf (e : MatrixEntry) : ℚ :=
  match e.summary.travelTime with
  | some q => q
  | none => e.summary.costfactor.getD 0

/-- The (possibly absent) `obj['summary']['distance']` contribution of one
entry to the current distances row. -/
def distOf (e : MatrixEntry) : List ℚ :=
  match e.summary.distance with
  | some q => [q]
  | none => []

/-- Prepend `x` onto the first row of a row list (appending a row holding
just `x` if there is none). -/
def consHead (x : List ℚ) : List (List ℚ) → List (List ℚ)
  | [] => [x]
  | r :: rs => (x ++ r) :: rs

/-- The claim's description of the loop's output, stated independently of the
index-based source loop: each entry contributes `f e` to the current row, and
a new row starts exactly where `startIndex` increases from one entry to the
next. -/
def specRows (f : MatrixEntry → List ℚ) : List MatrixEntry → List (List ℚ)
  | [] => [[]]
  | e :: rest =>
    match rest with
    | [] => [f e]
    | e2 :: _ =>
      if e2.startIndex > e.startIndex then f e :: specRows f rest
      else consHead (f e) (specRows f rest)

/-- The event list of `statuses.length` instantly-answered responses with the
given HTTP statuses, followed by `final`. -/
def retriableRun (statuses : List Nat) (final : NetEvent) : List NetEvent :=
  statuses.map (fun s => NetEvent.reply 0 s "" .otherError) ++ [final]

/-- The backoff sleep before the attempt with `retry_counter = k` (zero for
the first attempt). -/
def sleepAt (env : Env) (k : Nat) : ℚ :=
  if 0 < k then (3/2 : ℚ) ^ (k - 1) * (env.rand k + 1/2) else 0

/-- Total backoff sleep of the attempts `n, n+1, ..., n+N`. -/
def pendingSleep (env : Env) (n : Nat) : Nat → ℚ
  | 0 => sleepAt env n
  | N + 1 => sleepAt env n + pendingSleep env (n + 1) N

/-! ### Test fixtures -/

/-- A single well-formed matrix entry. -/
def entry1 : MatrixEntry := ⟨0, { travelTime := some 7 }⟩

/-- A 2x2 matrix response: two entries with `startIndex = 0`, then two with
`startIndex = 1`. -/
def entries4 : List MatrixEntry :=
  [⟨0, { travelTime := some 1, distance := some 10 }⟩,
   ⟨0, { travelTime := some 2, distance := some 20 }⟩,
   ⟨1, { travelTime := some 3, distance := some 30 }⟩,
   ⟨1, { travelTime := some 4, distance := some 40 }⟩]

/-- Deterministic environment: `random.random()` always yields `1/2`, the
clock never drifts outside sleeps and network calls. -/
def env0 : Env := ⟨fun _ => 1/2, fun _ => 0⟩

/-- Environment whose clock advances by one second before every deadline
check. -/
def envDrift : Env := ⟨fun _ => 1/2, fun _ => 1⟩

/-- A client for `https://api.example` with a given retry budget and
otherwise-default flags. -/
def exampleCfg (rt : ℚ) : Config := { base_url := "https://api.example", retry_timeout := rt }

/-- The success-scenario body: a JSON object mapping "ok" to true. -/
def okBody : JsonVal := .obj [("ok", .bool true)]

/-! ### C1: backoff sleep duration -/

/-- C1 (counterexample): the claim says the un-jittered base of the sleep
before retry attempt `n` is `0.5 * 1.5^(n-1)` seconds.  In a concrete run
whose single retry draws `random.random() = 1/2` (jitter factor exactly `1`),
the recorded sleep is `1` second — the code computes
`1.5^(retry_counter-1)` without the `0.5` factor — whereas the claim predicts
`0.5 * 1.5^0 * 1 = 0.5` seconds. -/
theorem claim1_counterexample :
    (request (exampleCfg 100) env0 "/route" [] none none false none 0 0
        [.reply 0 503 "" .otherError,
         .reply 0 200 "" (.success okBody)]).2.sleeps = [1] ∧
    (1 : ℚ) ≠ (1/2) * (3/2) ^ (0 : ℕ) * (env0.rand 1 + 1/2) := by
  constructor
  · norm_num [request, env0, exampleCfg, retriableStatuses, Trace.prepend]
  · show (1 : ℚ) ≠ (1/2) * (3/2) ^ (0 : ℕ) * ((1:ℚ)/2 + 1/2)
    norm_num

/-- C1 (amended): before retry attempt `n ≥ 1` (provided the deadline check
passes), `Client._request` sleeps `1.5^(n-1) * (random() + 0.5)` seconds: the
un-jittered base is `1.5^(n-1)` (not `0.5 * 1.5^(n-1)`), and the uniform
jitter factor `random() + 0.5` lies in `[0.5, 1.5)`, so the sleep lies in
`[0.5 * 1.5^(n-1), 1.5^n)`. -/
theorem claim1_amended (cfg : Config) (env : Env) (url : String)
    (gp : List (String × String)) (pp : Option JsonVal)
    (rk : Option RequestsKwargs) (dr : Bool) (frt : Option ℚ) (n : Nat)
    (t : ℚ) (rs : List NetEvent)
    (hn : 0 < n)
    (hcheck : t + env.gap n - frt.getD t ≤ cfg.retry_timeout)
    (hr0 : 0 ≤ env.rand n) (hr1 : env.rand n < 1) :
    (request cfg env url gp pp rk dr frt n t rs).2.sleeps.head? =
      some ((3/2 : ℚ) ^ (n - 1) * (env.rand n + 1/2)) ∧
    (1/2 : ℚ) * (3/2) ^ (n - 1) ≤ (3/2 : ℚ) ^ (n - 1) * (env.rand n + 1/2) ∧
    (3/2 : ℚ) ^ (n - 1) * (env.rand n + 1/2) < (3/2) * (3/2 : ℚ) ^ (n - 1) := by
  have hc : ¬ cfg.retry_timeout < t + env.gap n - frt.getD t := not_lt.mpr hcheck
  have hp : (0 : ℚ) < (3/2 : ℚ) ^ (n - 1) := by positivity
  refine ⟨?_, by nlinarith, by nlinarith⟩
  rw [request]
  simp only [hc, if_false, if_pos hn]
  repeat' split
  all_goals simp [Trace.prepend]

/-! ### C3: retry_timeout = 0 -/

/-- C3 (counterexample): the claim says that with `retry_timeout = 0` every
call fails at the first elapsed-time check with zero network calls.  The check
is the strict comparison `elapsed > self.retry_timeout`: in a run where no
measurable time passes between the two consecutive `datetime.now()` calls
(`elapsed = 0`), `0 > 0` is false, the first attempt proceeds, and one network
call is issued, returning the success body. -/
theorem claim3_counterexample :
    (request (exampleCfg 0) env0 "/route" [] none none false none 0 0
        [.reply 0 200 "" (.success okBody)]).2.networkCalls = 1 ∧
    (request (exampleCfg 0) env0 "/route" [] none none false none 0 0
        [.reply 0 200 "" (.success okBody)]).1 ≠ .timeout := by
  constructor
  · norm_num [request, env0, exampleCfg, retriableStatuses]
  · norm_num [request, env0, exampleCfg, retriableStatuses]
    exact fun h => nomatch h

/-- C3 (amended): with `retry_timeout = 0`, a fresh call fails immediately
with `Timeout` and zero network calls issued, provided strictly positive
wall-clock time elapses between `first_request_time = datetime.now()` and the
`elapsed` computation; with exactly zero measured elapsed time the strict
check passes and the first attempt is issued. -/
theorem claim3_amended (cfg : Config) (env : Env) (url : String)
    (gp : List (String × String)) (pp : Option JsonVal)
    (rk : Option RequestsKwargs) (dr : Bool) (t : ℚ) (rs : List NetEvent)
    (h0 : cfg.retry_timeout = 0) (hgap : 0 < env.gap 0) :
    (request cfg env url gp pp rk dr none 0 t rs).1 = .timeout ∧
    (request cfg env url gp pp rk dr none 0 t rs).2.networkCalls = 0 := by
  rw [request]
  simp [h0, hgap]

/-- C3 (witness): the amended statement at a concrete zero-budget client
whose clock advances by one second before the check. -/
theorem claim3_witness :
    (request (exampleCfg 0) envDrift "/route" [] none none false none 0 0
        [.reply 0 200 "" (.success okBody)]).1 = .timeout ∧
    (request (exampleCfg 0) envDrift "/route" [] none none false none 0 0
        [.reply 0 200 "" (.success okBody)]).2.networkCalls = 0 :=
  claim3_amended (exampleCfg 0) envDrift "/route" [] none none false 0
    [.reply 0 200 "" (.success okBody)] (by norm_num [exampleCfg])
    (by norm_num [envDrift])

/-! ### C4: OverQueryLimit handling -/

/-- C4: when the first attempt's response is classified `OverQueryLimit`
(i.e. `_get_body` raises it) and its status is not a retriable one, then with
`retry_over_query_limit = false` the error propagates at once — one network
call, no sleep — and with `retry_over_query_limit = true` the call warns and
re-enters the attempt loop with the counter incremented to 1. -/
theorem claim4_over_query_limit (cfg : Config) (env : Env) (url : String)
    (gp : List (String × String)) (pp : Option JsonVal)
    (rk : Option RequestsKwargs) (dur t : ℚ) (status : Nat) (text : String)
    (rest : List NetEvent)
    (hcheck : env.gap 0 ≤ cfg.retry_timeout)
    (hst : status ∉ retriableStatuses)
    (henc : ∃ fk, encodePost pp
      (dictMerge cfg.requests_kwargs (rk.getD {})) = .ok fk) :
    (cfg.retry_over_query_limit = false →
      (request cfg env url gp pp rk false none 0 t
          (.reply dur status text .overQueryLimit :: rest)).1 =
        .overQueryLimit ∧
      (request cfg env url gp pp rk false none 0 t
          (.reply dur status text .overQueryLimit :: rest)).2.networkCalls
        = 1 ∧
      (request cfg env url gp pp rk false none 0 t
          (.reply dur status text .overQueryLimit :: rest)).2.sleeps = []) ∧
    (cfg.retry_over_query_limit = true →
      (request cfg env url gp pp rk false none 0 t
          (.reply dur status text .overQueryLimit :: rest)).1 =
        (request cfg env url gp pp rk false (some t) 1
          (t + env.gap 0 + dur) rest).1 ∧
      (request cfg env url gp pp rk false none 0 t
          (.reply dur status text .overQueryLimit :: rest)).2.networkCalls =
        1 + (request cfg env url gp pp rk false (some t) 1
          (t + env.gap 0 + dur) rest).2.networkCalls ∧
      (request cfg env url gp pp rk false none 0 t
          (.reply dur status text .overQueryLimit :: rest)).2.warnings =
        .rateLimitRetry 1 :: (request cfg env url gp pp rk false (some t) 1
          (t + env.gap 0 + dur) rest).2.warnings) := by
  obtain ⟨fk, hfk⟩ := henc
  have hc : ¬ cfg.retry_timeout < t + env.gap 0 - t := by
    simp only [add_sub_cancel_left]
    exact not_lt.mpr hcheck
  rw [request]
  simp only [Option.getD_none]
  rw [if_neg hc]
  simp [hfk, hst, Trace.prepend]
  constructor <;> intro h <;> simp [h]

/-- C4 (witness): the theorem applied to a concrete default-flag client
(`retry_over_query_limit = false`): the over-quota error propagates with one
call and no sleep. -/
theorem claim4_witness :
    (request (exampleCfg 10) env0 "/route" [] none none false none 0 0
        [.reply 0 429 "quota" .overQueryLimit]).1 = .overQueryLimit ∧
    (request (exampleCfg 10) env0 "/route" [] none none false none 0 0
        [.reply 0 429 "quota" .overQueryLimit]).2.networkCalls = 1 ∧
    (request (exampleCfg 10) env0 "/route" [] none none false none 0 0
        [.reply 0 429 "quota" .overQueryLimit]).2.sleeps = [] :=
  (claim4_over_query_limit (exampleCfg 10) env0 "/route" [] none none 0 0
    429 "quota" [] (by norm_num [env0, exampleCfg]) (by norm_num [retriableStatuses])
    ⟨{}, rfl⟩).1 rfl

/-! ### C2: the retry_timeout invariant -/

theorem mem_dropLast_cons {a c : ℚ} {l : List ℚ}
    (h : c ∈ (a :: l).dropLast) : c = a ∨ c ∈ l.dropLast := by
  cases l with
  | nil => simp at h
  | cons b m =>
    rw [List.dropLast_cons₂] at h
    rcases List.mem_cons.mp h with h | h
    · exact Or.inl h
    · exact Or.inr h

/-- C2 (counterexample): the claim says the total wall-clock time of one
logical call never exceeds `retry_timeout`, and that once it is exceeded the
call fails with `Timeout`.  With `retry_timeout = 1` and a first attempt whose
network call takes 5 seconds, the call *returns the success body* and its
total wall-clock time is 5 > 1: the deadline is only consulted at attempt
boundaries, never during an attempt. -/
theorem claim2_counterexample :
    (request (exampleCfg 1) env0 "/route" [] none none false none 0 0
        [.reply 5 200 "" (.success okBody)]).1 = .success okBody ∧
    (request (exampleCfg 1) env0 "/route" [] none none false none 0 0
        [.reply 5 200 "" (.success okBody)]).2.endTime = 5 ∧
    ¬ ((5 : ℚ) ≤ (exampleCfg 1).retry_timeout) := by
  refine ⟨?_, ?_, ?_⟩ <;>
    norm_num [request, env0, exampleCfg, retriableStatuses, encodePost]

/-- C2 (amended): the deadline is enforced at attempt boundaries only: in
every run, any elapsed value measured at a deadline check that exceeds
`retry_timeout` makes the call fail with `Timeout` immediately (so every
check except the final one measures at most `retry_timeout`), but the time
spent inside the last attempt — its backoff sleep and its network call — can
carry the total wall-clock time of the call past `retry_timeout`. -/
theorem claim2_amended (cfg : Config) (env : Env) (url : String)
    (gp : List (String × String)) (pp : Option JsonVal)
    (rk : Option RequestsKwargs) :
    ∀ (rs : List NetEvent) (dr : Bool) (frt : Option ℚ) (n : Nat) (t : ℚ),
    (∀ c ∈ (request cfg env url gp pp rk dr frt n t rs).2.checks,
      cfg.retry_timeout < c →
      (request cfg env url gp pp rk dr frt n t rs).1 = .timeout) ∧
    (∀ c ∈ (request cfg env url gp pp rk dr frt n t rs).2.checks.dropLast,
      c ≤ cfg.retry_timeout) := by
  intro rs
  induction rs with
  | nil =>
    intro dr frt n t
    rw [request]
    by_cases hch : cfg.retry_timeout < t + env.gap n - frt.getD t
    · rw [if_pos hch]
      constructor
      · intro c hc hlt; rfl
      · intro c hc; simp at hc
    · rw [if_neg hch]
      simp only [Trace.prepend]
      repeat' split
      all_goals refine ⟨fun c hc hlt => ?_, fun c hc => ?_⟩
      all_goals
        first
          | (simp only [List.mem_cons, List.not_mem_nil, or_false] at hc
             subst hc
             exact absurd hlt hch)
          | (simp only [List.dropLast_single] at hc
             exact absurd hc (List.not_mem_nil c))
  | cons ev rest ih =>
    intro dr frt n t
    rw [request]
    by_cases hch : cfg.retry_timeout < t + env.gap n - frt.getD t
    · rw [if_pos hch]
      constructor
      · intro c hc hlt; rfl
      · intro c hc; simp at hc
    · rw [if_neg hch]
      simp only [Trace.prepend]
      repeat' split
      all_goals refine ⟨fun c hc hlt => ?_, fun c hc => ?_⟩
      all_goals
        first
          | (simp only [List.mem_cons, List.not_mem_nil, or_false] at hc
             subst hc
             exact absurd hlt hch)
          | (simp only [List.mem_cons] at hc
             rcases hc with rfl | hc
             · exact absurd hlt hch
             · exact (ih _ _ _ _).1 c hc hlt)
          | (simp only [List.dropLast_single] at hc
             exact absurd hc (List.not_mem_nil c))
          | (rcases mem_dropLast_cons hc with rfl | hc
             · exact le_of_not_lt hch
             · exact (ih _ _ _ _).2 c hc)

/-- C2 (witness): the amended statement applied to a zero-budget client whose
clock drifts one second before the check: the only check measures 1 > 0, and
the run indeed resolves to `Timeout`. -/
theorem claim2_witness :
    (request (exampleCfg 0) envDrift "/route" [] none none false none 0 0
        []).1 = .timeout :=
  (claim2_amended (exampleCfg 0) envDrift "/route" [] none none [] false
    none 0 0).1 1
    (by norm_num [request, envDrift, exampleCfg])
    (by norm_num [exampleCfg])

/-! ### C5: N retriable statuses followed by a success -/

theorem sleepAt_nonneg (env : Env) (hrand : ∀ k, 0 ≤ env.rand k) (n : Nat) :
    0 ≤ sleepAt env n := by
  unfold sleepAt
  split
  · have := hrand n
    positivity
  · exact le_rfl

theorem pendingSleep_nonneg (env : Env) (hrand : ∀ k, 0 ≤ env.rand k) :
    ∀ N n, 0 ≤ pendingSleep env n N := by
  intro N
  induction N with
  | zero => intro n; exact sleepAt_nonneg env hrand n
  | succ N ih =>
    intro n
    have h1 := sleepAt_nonneg env hrand n
    have h2 := ih (n + 1)
    unfold pendingSleep
    linarith

theorem sleeps_sum (env : Env) (n : Nat) :
    (if 0 < n then [(3/2 : ℚ) ^ (n - 1) * (env.rand n + 2⁻¹)] else []).sum
      = sleepAt env n := by
  unfold sleepAt
  split <;> norm_num

/-- C5: for every list of retriable HTTP statuses answered consecutively and
followed by an HTTP 200 reply whose body parses to `b`, a call whose retry
budget covers all the backoff sleeps (and whose clock only advances by those
sleeps) returns `Success b` having issued exactly `N + 1` network calls.  The
spec's scenario — two 503 responses, then 200 with a valid body — is the
instance `statuses = [503, 503]` (see the witness). -/
theorem claim5_retriable_then_success (cfg : Config) (env : Env)
    (url : String) (gp : List (String × String)) (dur : ℚ) (b : JsonVal)
    (text : String)
    (hrand : ∀ k, 0 ≤ env.rand k) (hgap : ∀ k, env.gap k = 0)
    (statuses : List Nat) :
    ∀ (frt : Option ℚ) (n : Nat) (t : ℚ),
    (∀ s ∈ statuses, s ∈ retriableStatuses) →
    t + pendingSleep env n statuses.length - frt.getD t ≤ cfg.retry_timeout →
    (request cfg env url gp none none false frt n t
        (retriableRun statuses (.reply dur 200 text (.success b)))).1 =
      .success b ∧
    ((request cfg env url gp none none false frt n t
        (retriableRun statuses
          (.reply dur 200 text (.success b)))).2).networkCalls =
      statuses.length + 1 := by
  induction statuses with
  | nil =>
    intro frt n t _ hbudget
    have hs0 : (0 : ℚ) ≤ sleepAt env n := sleepAt_nonneg env hrand n
    simp only [List.length_nil] at hbudget
    have hps : pendingSleep env n 0 = sleepAt env n := rfl
    rw [hps] at hbudget
    have hc : ¬ cfg.retry_timeout < t + env.gap n - frt.getD t := by
      rw [hgap n]
      exact not_lt.mpr (by linarith)
    rw [request]
    rw [if_neg hc]
    simp [retriableRun, retriableStatuses, encodePost]
  | cons s rest ih =>
    intro frt n t hsts hbudget
    have hpend : pendingSleep env n (rest.length + 1) =
        sleepAt env n + pendingSleep env (n + 1) rest.length := rfl
    have hs0 : (0 : ℚ) ≤ sleepAt env n := sleepAt_nonneg env hrand n
    have hp0 : (0 : ℚ) ≤ pendingSleep env (n + 1) rest.length :=
      pendingSleep_nonneg env hrand rest.length (n + 1)
    have hc : ¬ cfg.retry_timeout < t + env.gap n - frt.getD t := by
      rw [hgap n]
      rw [List.length_cons, hpend] at hbudget
      exact not_lt.mpr (by linarith)
    have hmem : s ∈ retriableStatuses := hsts s (List.mem_cons_self s rest)
    have hsub := ih (some (frt.getD t)) (n + 1) (t + sleepAt env n)
      (fun x hx => hsts x (List.mem_cons_of_mem s hx))
      (by
        rw [List.length_cons, hpend] at hbudget
        simp only [Option.getD_some]
        linarith)
    obtain ⟨h1, h2⟩ := hsub
    simp only [retriableRun] at h1 h2
    rw [request]
    rw [if_neg hc]
    simp [hmem, Trace.prepend, hgap, sleeps_sum, encodePost, retriableRun]
    constructor
    · exact h1
    · omega

/-- C5 (witness): the spec's scenario — retry budget 5 s, two HTTP 503
responses then HTTP 200 with the valid body — yields the success body with
exactly 3 network calls. -/
theorem claim5_witness :
    (request (exampleCfg 5) env0 "/route" [] none none false none 0 0
        (retriableRun [503, 503] (.reply 0 200 "" (.success okBody)))).1 =
      .success okBody ∧
    ((request (exampleCfg 5) env0 "/route" [] none none false none 0 0
        (retriableRun [503, 503]
          (.reply 0 200 "" (.success okBody)))).2).networkCalls =
      [503, 503].length + 1 :=
  claim5_retriable_then_success (exampleCfg 5) env0 "/route" [] 0 okBody ""
    (fun k => by norm_num [env0]) (fun k => rfl) [503, 503] none 0 0
    (by intro s hs; fin_cases hs <;> norm_num [retriableStatuses])
    (by norm_num [pendingSleep, sleepAt, env0, exampleCfg])

/-! ### C6: RouterApiError and skip_api_error -/

/-- C6: when `_get_body` classifies the first attempt's response as a
`RouterApiError` (status not retriable), then with `skip_api_error = true` the
call warns with the raw response text and returns no result, and with
`skip_api_error = false` (the default) the `RouterApiError` propagates. -/
theorem claim6_skip_api_error (cfg : Config) (env : Env) (url : String)
    (gp : List (String × String)) (pp : Option JsonVal)
    (rk : Option RequestsKwargs) (dur t : ℚ) (status : Nat) (text : String)
    (rest : List NetEvent)
    (hcheck : env.gap 0 ≤ cfg.retry_timeout)
    (hst : status ∉ retriableStatuses)
    (henc : ∃ fk, encodePost pp
      (dictMerge cfg.requests_kwargs (rk.getD {})) = .ok fk) :
    (cfg.skip_api_error = true →
      (request cfg env url gp pp rk false none 0 t
          (.reply dur status text .routerApiError :: rest)).1 = .noResult ∧
      (request cfg env url gp pp rk false none 0 t
          (.reply dur status text .routerApiError :: rest)).2.warnings =
        [.skippedApiError text]) ∧
    (cfg.skip_api_error = false →
      (request cfg env url gp pp rk false none 0 t
          (.reply dur status text .routerApiError :: rest)).1 =
        .routerApiError ∧
      (request cfg env url gp pp rk false none 0 t
          (.reply dur status text .routerApiError :: rest)).2.warnings
        = []) := by
  obtain ⟨fk, hfk⟩ := henc
  have hc : ¬ cfg.retry_timeout < t + env.gap 0 - t := by
    simp only [add_sub_cancel_left]
    exact not_lt.mpr hcheck
  rw [request]
  simp only [Option.getD_none]
  rw [if_neg hc]
  simp [hfk, hst, Trace.prepend]
  constructor <;> intro h <;> simp [h]

/-- C6 (witness): the theorem at a client with `skip_api_error = true`: the
API error is swallowed, and the emitted warning carries the raw response
text. -/
theorem claim6_witness :
    (request { base_url := "b", retry_timeout := 10, skip_api_error := true }
        env0 "/route" [] none none false none 0 0
        [.reply 0 400 "bad request" .routerApiError]).1 = .noResult ∧
    (request { base_url := "b", retry_timeout := 10, skip_api_error := true }
        env0 "/route" [] none none false none 0 0
        [.reply 0 400 "bad request" .routerApiError]).2.warnings =
      [.skippedApiError "bad request"] :=
  (claim6_skip_api_error
    { base_url := "b", retry_timeout := 10, skip_api_error := true }
    env0 "/route" [] none none 0 0 400 "bad request" []
    (by norm_num [env0]) (by norm_num [retriableStatuses]) ⟨{}, rfl⟩).1 rfl

/-! ### C7: transport-level timeout -/

/-- C7: if the HTTP call of any single attempt (arbitrary retry counter `n`
and remaining budget) raises the transport-level `requests.exceptions.Timeout`,
`Client._request` fails at once with `Timeout`: exactly one more network call
is recorded, no retry warning is emitted, and no further event is consumed. -/
theorem claim7_transport_timeout (cfg : Config) (env : Env) (url : String)
    (gp : List (String × String)) (pp : Option JsonVal)
    (rk : Option RequestsKwargs) (frt : Option ℚ) (n : Nat) (dur t : ℚ)
    (rest : List NetEvent)
    (hcheck : t + env.gap n - frt.getD t ≤ cfg.retry_timeout)
    (henc : ∃ fk, encodePost pp
      (dictMerge cfg.requests_kwargs (rk.getD {})) = .ok fk) :
    (request cfg env url gp pp rk false frt n t
        (.transportTimeout dur :: rest)).1 = .timeout ∧
    (request cfg env url gp pp rk false frt n t
        (.transportTimeout dur :: rest)).2.networkCalls = 1 ∧
    (request cfg env url gp pp rk false frt n t
        (.transportTimeout dur :: rest)).2.warnings = [] := by
  obtain ⟨fk, hfk⟩ := henc
  have hc : ¬ cfg.retry_timeout < t + env.gap n - frt.getD t :=
    not_lt.mpr hcheck
  rw [request]
  rw [if_neg hc]
  simp [hfk]

/-- C7 (witness): a transport timeout on the third attempt (retry counter 2)
of a concrete client with plenty of budget left still fails immediately. -/
theorem claim7_witness :
    (request (exampleCfg 1000) env0 "/route" [] none none false (some 0) 2 3
        [.transportTimeout 5, .reply 0 200 "" (.success okBody)]).1 =
      .timeout ∧
    (request (exampleCfg 1000) env0 "/route" [] none none false (some 0) 2 3
        [.transportTimeout 5,
         .reply 0 200 "" (.success okBody)]).2.networkCalls = 1 ∧
    (request (exampleCfg 1000) env0 "/route" [] none none false (some 0) 2 3
        [.transportTimeout 5,
         .reply 0 200 "" (.success okBody)]).2.warnings = [] :=
  claim7_transport_timeout (exampleCfg 1000) env0 "/route" [] none none
    (some 0) 2 5 3 [.reply 0 200 "" (.success okBody)]
    (by norm_num [env0, exampleCfg]) ⟨{}, rfl⟩

/-! ### C8: dry run -/

/-- C8: with `dry_run` set (and the call not failing earlier: deadline check
passed, POST encoding not raising `KeyError`), `Client._request` issues no
network call, prints the fully resolved URL together with the merged and
encoded request options, and returns no result. -/
theorem claim8_dry_run (cfg : Config) (env : Env) (url : String)
    (gp : List (String × String)) (pp : Option JsonVal)
    (rk : Option RequestsKwargs) (frt : Option ℚ) (n : Nat) (t : ℚ)
    (rs : List NetEvent) (fk : RequestsKwargs)
    (hcheck : t + env.gap n - frt.getD t ≤ cfg.retry_timeout)
    (hfk : encodePost pp
      (dictMerge cfg.requests_kwargs (rk.getD {})) = .ok fk) :
    (request cfg env url gp pp rk true frt n t rs).1 = .noResult ∧
    (request cfg env url gp pp rk true frt n t rs).2.networkCalls = 0 ∧
    (request cfg env url gp pp rk true frt n t rs).2.printed =
      some (cfg.base_url ++ generateAuthUrl url gp, fk) := by
  have hc : ¬ cfg.retry_timeout < t + env.gap n - frt.getD t :=
    not_lt.mpr hcheck
  rw [request]
  rw [if_neg hc]
  simp [hfk]

/-- C8 (witness): a concrete dry-run POST with a JSON content type: no
network event is consumed, the resolved URL and the kwargs (with the body
placed in the `json` slot) are printed. -/
theorem claim8_witness :
    (request
        { base_url := "https://api.example", retry_timeout := 60,
          requests_kwargs :=
            { headers := [("Content-Type", "application/json")] } }
        env0 "/route" [("k", "v")] (some okBody) none true none 0 0
        [.reply 0 200 "" (.success okBody)]).1 = .noResult ∧
    (request
        { base_url := "https://api.example", retry_timeout := 60,
          requests_kwargs :=
            { headers := [("Content-Type", "application/json")] } }
        env0 "/route" [("k", "v")] (some okBody) none true none 0 0
        [.reply 0 200 "" (.success okBody)]).2.networkCalls = 0 ∧
    (request
        { base_url := "https://api.example", retry_timeout := 60,
          requests_kwargs :=
            { headers := [("Content-Type", "application/json")] } }
        env0 "/route" [("k", "v")] (some okBody) none true none 0 0
        [.reply 0 200 "" (.success okBody)]).2.printed =
      some ("https://api.example" ++ generateAuthUrl "/route" [("k", "v")],
        { headers := [("Content-Type", "application/json")],
          json := some okBody }) :=
  claim8_dry_run
    { base_url := "https://api.example", retry_timeout := 60,
      requests_kwargs :=
        { headers := [("Content-Type", "application/json")] } }
    env0 "/route" [("k", "v")] (some okBody) none none 0 0
    [.reply 0 200 "" (.success okBody)]
    { headers := [("Content-Type", "application/json")], json := some okBody }
    (by norm_num [env0]) rfl

/-! ### C10: unconditional Content-Type lookup for POSTs -/

/-- C10: whenever `post_params` is given and the merged request options have
no `headers` mapping containing a `Content-Type` key, the unguarded lookup
`final_requests_kwargs['headers']['Content-Type']` raises `KeyError` before
any network I/O (zero network calls recorded), for any attempt state. -/
theorem claim10_content_type_keyerror (cfg : Config) (env : Env)
    (url : String) (gp : List (String × String)) (p : JsonVal)
    (rk : Option RequestsKwargs) (frt : Option ℚ) (n : Nat) (t : ℚ)
    (dr : Bool) (rs : List NetEvent)
    (hcheck : t + env.gap n - frt.getD t ≤ cfg.retry_timeout)
    (hhdr : ∀ hs, (dictMerge cfg.requests_kwargs (rk.getD {})).headers =
      some hs → hs.lookup "Content-Type" = none) :
    (request cfg env url gp (some p) rk dr frt n t rs).1 = .keyError ∧
    (request cfg env url gp (some p) rk dr frt n t rs).2.networkCalls
      = 0 := by
  have hc : ¬ cfg.retry_timeout < t + env.gap n - frt.getD t :=
    not_lt.mpr hcheck
  have hfe : encodePost (some p)
      (dictMerge cfg.requests_kwargs (rk.getD {})) = .error () := by
    unfold encodePost
    cases hh : (dictMerge cfg.requests_kwargs (rk.getD {})).headers with
    | none => simp
    | some hs => simp [hhdr hs hh]
  rw [request]
  rw [if_neg hc]
  simp [hfe]

/-- C10 (witness): a POST through a client whose merged options carry no
`headers` dict at all fails with `KeyError` and performs no network call. -/
theorem claim10_witness :
    (request (exampleCfg 60) env0 "/route" [] (some okBody) none false none
        0 0 [.reply 0 200 "" (.success okBody)]).1 = .keyError ∧
    (request (exampleCfg 60) env0 "/route" [] (some okBody) none false none
        0 0 [.reply 0 200 "" (.success okBody)]).2.networkCalls = 0 :=
  claim10_content_type_keyerror (exampleCfg 60) env0 "/route" [] okBody none
    none 0 0 false [.reply 0 200 "" (.success okBody)]
    (by norm_num [env0, exampleCfg])
    (by intro hs h; simp [exampleCfg, dictMerge] at h)

/-- C1 (witness): the amended statement instantiated at retry attempt 1 of a
concrete client, where the sleep is `1.5^0 * (1/2 + 1/2) = 1` second. -/
theorem claim1_witness :
    (request (exampleCfg 100) env0 "/route" [] none none false none 1 0
        []).2.sleeps.head? =
      some ((3/2 : ℚ) ^ (1 - 1) * (env0.rand 1 + 1/2)) ∧
    (1/2 : ℚ) * (3/2) ^ (1 - 1) ≤ (3/2 : ℚ) ^ (1 - 1) * (env0.rand 1 + 1/2) ∧
    (3/2 : ℚ) ^ (1 - 1) * (env0.rand 1 + 1/2) < (3/2) * (3/2 : ℚ) ^ (1 - 1) :=
  claim1_amended (exampleCfg 100) env0 "/route" [] none none false none 1 0 []
    (by decide) (by norm_num [env0, exampleCfg]) (by norm_num [env0])
    (by norm_num [env0])

/-! ### C9: HereMaps._parse_matrix_json -/

theorem consHead_cons (x r : List ℚ) (rs : List (List ℚ)) :
    consHead x (r :: rs) = (x ++ r) :: rs := rfl

theorem consHead_consHead (a b : List ℚ) (l : List (List ℚ)) :
    consHead a (consHead b l) = consHead (a ++ b) l := by
  cases l <;> simp [consHead]

theorem specRows_ne_nil (f : MatrixEntry → List ℚ) (l : List MatrixEntry) :
    specRows f l ≠ [] := by
  cases l with
  | nil => simp [specRows]
  | cons e rest =>
    cases rest with
    | nil => simp [specRows]
    | cons e2 r2 =>
      rw [specRows]
      split
      · simp
      · cases h : specRows f (e2 :: r2) <;> simp [consHead]

theorem consHead_nil (l : List (List ℚ)) (h : l ≠ []) : consHead [] l = l := by
  cases l with
  | nil => exact absurd rfl h
  | cons r rs => simp [consHead]

theorem specRows_single (f : MatrixEntry → List ℚ) (e : MatrixEntry) :
    specRows f [e] = [f e] := by
  simp [specRows]

theorem specRows_cons_incr (f : MatrixEntry → List ℚ) (e e2 : MatrixEntry)
    (r : List MatrixEntry) (h : e2.startIndex > e.startIndex) :
    specRows f (e :: e2 :: r) = f e :: specRows f (e2 :: r) := by
  rw [specRows]
  simp [h]

theorem specRows_cons_nincr (f : MatrixEntry → List ℚ) (e e2 : MatrixEntry)
    (r : List MatrixEntry) (h : ¬ e2.startIndex > e.startIndex) :
    specRows f (e :: e2 :: r) = consHead (f e) (specRows f (e2 :: r)) := by
  rw [specRows]
  simp [h]

/-- Invariant of the enumerated loop of `_parse_matrix_json`: processing the
suffix `cur :: rest` of `all` from position `k` (with `next_` holding
`some cur` whenever `k` is already the last index) appends to the accumulators
exactly the rows described by `specRows`, each split where `startIndex`
increases. -/
theorem matrixLoop_spec (all : List MatrixEntry) :
    ∀ (rest : List MatrixEntry) (cur : MatrixEntry) (k : Nat)
      (next_ : Option MatrixEntry) (idur idist : List ℚ)
      (durs dists : List (List ℚ)),
    all.drop k = cur :: rest →
    k + 1 + rest.length = all.length →
    (k = all.length - 1 → next_ = some cur) →
    (∀ e ∈ cur :: rest, summaryDuration e.summary = .ok (durOf e)) →
    matrixLoop all all.length (List.enumFrom k (cur :: rest)) next_ idur idist
        durs dists =
      .ok (durs ++ consHead idur (specRows (fun e => [durOf e]) (cur :: rest)),
           dists ++ consHead idist (specRows distOf (cur :: rest))) := by
  intro rest
  induction rest with
  | nil =>
    intro cur k next_ idur idist durs dists hdrop hlen hlast hwf
    have hlen' : k + 1 = all.length := by simpa using hlen
    have hk : ¬ k < all.length - 1 := by omega
    have hnx : next_ = some cur := hlast (by omega)
    have hcur : summaryDuration cur.summary = .ok (durOf cur) :=
      hwf cur (List.mem_cons_self cur [])
    rw [List.enumFrom, matrixLoop]
    simp only [hcur, hnx]
    rw [if_neg hk]
    simp only [hnx]
    rw [if_neg (lt_irrefl cur.startIndex)]
    rw [show List.enumFrom (k + 1) ([] : List MatrixEntry) = [] from rfl,
      matrixLoop]
    cases hd : cur.summary.distance <;>
      simp [specRows_single, consHead_cons, distOf, hd]
  | cons nxt rest2 ih =>
    intro cur k next_ idur idist durs dists hdrop hlen hlast hwf
    have hlen' : k + 2 + rest2.length = all.length := by
      simp only [List.length_cons] at hlen
      omega
    have hklt : k < all.length - 1 := by omega
    have hget : all.get? (k + 1) = some nxt := by
      have h1 : (all.drop k).get? 1 = all.get? (k + 1) := by
        rw [List.get?_drop]
      rw [hdrop] at h1
      simpa using h1.symm
    have hdrop2 : all.drop (k + 1) = nxt :: rest2 := by
      have h2 : all.drop (k + 1) = (all.drop k).tail := by
        rw [← List.tail_drop]
      rw [h2, hdrop]
      rfl
    have hcur : summaryDuration cur.summary = .ok (durOf cur) :=
      hwf cur (List.mem_cons_self cur _)
    have hwf2 : ∀ e ∈ nxt :: rest2,
        summaryDuration e.summary = .ok (durOf e) :=
      fun e he => hwf e (List.mem_cons_of_mem cur he)
    rw [List.enumFrom, matrixLoop]
    rw [if_pos hklt]
    simp only [hget, hcur]
    by_cases hinc : nxt.startIndex > cur.startIndex
    · rw [if_pos hinc]
      rw [ih nxt (k + 1) (some nxt) [] [] _ _ hdrop2 (by omega)
        (fun _ => rfl) hwf2]
      rw [specRows_cons_incr _ _ _ _ hinc, specRows_cons_incr _ _ _ _ hinc]
      rw [consHead_nil _ (specRows_ne_nil _ _),
        consHead_nil _ (specRows_ne_nil _ _)]
      cases hd : cur.summary.distance <;>
        simp [distOf, hd, consHead_cons]
    · rw [if_neg hinc]
      rw [ih nxt (k + 1) (some nxt) _ _ _ _ hdrop2 (by omega)
        (fun _ => rfl) hwf2]
      rw [specRows_cons_nincr _ _ _ _ hinc, specRows_cons_nincr _ _ _ _ hinc]
      cases hd : cur.summary.distance <;>
        simp [distOf, hd, consHead_consHead]

/-- C9: applied to a non-dry-run response whose `matrixEntry` list holds
exactly one (well-formed) entry, `_parse_matrix_json` raises an exception —
the `next_` placeholder is still `None` when `next_['startIndex']` is read
(`TypeError` in Python) — instead of returning a 1x1 `Matrix`; with two or
more well-formed entries it returns a `Matrix` whose duration and distance
rows are split exactly at each increase of `startIndex` (the `specRows`
description). -/
theorem claim9_parse_matrix :
    (∀ e : MatrixEntry, summaryDuration e.summary = .ok (durOf e) →
      parse_matrix_json (some [e]) = .error .typeError) ∧
    (∀ entries : List MatrixEntry, 2 ≤ entries.length →
      (∀ e ∈ entries, summaryDuration e.summary = .ok (durOf e)) →
      parse_matrix_json (some entries) =
        .ok (some { durations := specRows (fun e => [durOf e]) entries,
                    distances := specRows distOf entries })) := by
  constructor
  · intro e h
    simp [parse_matrix_json, List.enum, List.enumFrom, matrixLoop, h]
  · intro entries h2 hwf
    match entries, h2 with
    | e1 :: e2 :: rest, _ =>
      have hspec := matrixLoop_spec (e1 :: e2 :: rest) (e2 :: rest) e1 0 none
        [] [] [] []
        (by simp) (by simp; omega) (by intro h; simp [List.length_cons] at h)
        hwf
      rw [parse_matrix_json]
      have henum : (e1 :: e2 :: rest).enum =
          List.enumFrom 0 (e1 :: e2 :: rest) := rfl
      rw [henum, hspec]
      simp [consHead_nil _ (specRows_ne_nil _ _)]

/-- C9 (witness): a single well-formed entry raises `TypeError`; the concrete
2x2 response `entries4` (startIndex 0,0,1,1) parses to a matrix whose rows are
split at the startIndex increase: durations `[[1,2],[3,4]]`, distances
`[[10,20],[30,40]]`. -/
theorem claim9_witness :
    parse_matrix_json (some [entry1]) = .error .typeError ∧
    parse_matrix_json (some entries4) =
      .ok (some { durations := specRows (fun e => [durOf e]) entries4,
                  distances := specRows distOf entries4 }) ∧
    specRows (fun e => [durOf e]) entries4 = [[1, 2], [3, 4]] ∧
    specRows distOf entries4 = [[10, 20], [30, 40]] :=
  ⟨claim9_parse_matrix.1 entry1 rfl,
   claim9_parse_matrix.2 entries4 (by norm_num [entries4])
     (by intro e he; fin_cases he <;> rfl),
   by norm_num [specRows, consHead, durOf, entries4],
   by norm_num [specRows, consHead, distOf, entries4]⟩

end RoutingPy
